import Mathlib

/-!
Shallow embedding of `selfdrive/frogpilot/controls/lib/conditional_experimental_mode.py`
(class `ConditionalExperimentalMode`) and verification of the specification's claims
about it.

Modelling conventions:
* Python floats are modelled as rationals (`ℚ`); the status code is an integer (`ℤ`).
* The shared-memory register `params_memory["CEStatus"]` is the field `ce_status`
  of the state; `get_int` reads it and `put_int` overwrites it.
* Fallible code returns `Option`: a Python exception (`ZeroDivisionError` from
  `1 / road_curvature`, or the `TypeError` raised when the complex result of
  `x ** 0.5` for negative `x` is compared with a float) is modelled as `none`.
* `(x) ** 0.5 < v` for `x ≥ 0` is encoded over `ℚ` as `0 < v ∧ x < v * v`, which is
  equivalent to `Real.sqrt x < v`; the bridging lemma `pySqrtLt_iff_sqrt` proves
  this equivalence against Mathlib's `Real.sqrt`.
-/

/-- Modelled from the spec: `MovingAverageCalculator` (from
`frogpilot_functions`, not under `src/`). Per spec §4.1 it keeps a fixed-capacity
ordered window of boolean samples; `add_data` appends and discards the oldest
entry once the window is full; `get_moving_average` returns (sum of window) /
(window capacity), zero-padding a window that is not yet full; `reset_data`
clears the window. -/
structure MovingAverageCalculator where
  window_size : ℕ
  data : List Bool
deriving DecidableEq

/-- Modelled from the spec: append a sample, dropping the oldest entries so that
at most `window_size` samples remain. -/
def MovingAverageCalculator.add_data (m : MovingAverageCalculator) (b : Bool) :
    MovingAverageCalculator :=
  let d := m.data ++ [b]
  { m with data := if m.window_size < d.length then d.drop (d.length - m.window_size) else d }

/-- Modelled from the spec: rolling fraction = (number of true samples) divided by
the window capacity (zero-padded while the window is not yet full). -/
def MovingAverageCalculator.get_moving_average (m : MovingAverageCalculator) : ℚ :=
  (m.data.countP (fun b => b) : ℚ) / (m.window_size : ℚ)

/-- Modelled from the spec: clear the window back to the initial empty state. -/
def MovingAverageCalculator.reset_data (m : MovingAverageCalculator) :
    MovingAverageCalculator :=
  { m with data := [] }

/-- Modelled from the spec: the detection-confidence constant `THRESHOLD` imported
from `frogpilot_variables` (not under `src/`); the spec says only that it is a
fraction in (0, 1], so it is kept abstract as a parameter. -/
structure FrogPilotVariables where
  THRESHOLD : ℚ
deriving DecidableEq

/-- Fields of `carState` read by the module. -/
structure CarState where
  standstill : Bool
  leftBlinker : Bool
  rightBlinker : Bool
deriving DecidableEq

/-- Fields of `frogpilotNavigation` read by the module. -/
structure FrogPilotNavigation where
  approachingIntersection : Bool
  approachingTurn : Bool
deriving DecidableEq

/-- Fields of `modelData` read by the module. -/
structure ModelData where
  navEnabled : Bool
deriving DecidableEq

/-- Fields of `self.frogpilot_planner` read by the module (external planner
snapshot for one cycle). `following_lead` stands for
`frogpilot_following.following_lead`, `slower_lead` for
`frogpilot_following.slower_lead`, `forcing_stop` for
`frogpilot_vcruise.forcing_stop`, and `slc_experimental_mode` for
`frogpilot_vcruise.slc.experimental_mode`. -/
structure FrogPilotPlanner where
  tracking_lead : Bool
  following_lead : Bool
  slower_lead : Bool
  lane_width_left : ℚ
  lane_width_right : ℚ
  road_curvature : ℚ
  model_length : ℚ
  model_stopped : Bool
  forcing_stop : Bool
  slc_experimental_mode : Bool
deriving DecidableEq

/-- Fields of `frogpilot_toggles` read by the module. -/
structure FrogPilotToggles where
  experimental_mode_via_press : Bool
  conditional_limit : ℚ
  conditional_limit_lead : ℚ
  conditional_signal : ℚ
  conditional_signal_lane_detection : Bool
  lane_detection : Bool
  lane_detection_width : ℚ
  conditional_navigation : Bool
  conditional_navigation_lead : Bool
  conditional_curves : Bool
  conditional_curves_lead : Bool
  conditional_lead : Bool
  conditional_slower_lead : Bool
  conditional_stopped_lead : Bool
  conditional_model_stop_time : ℚ
deriving DecidableEq

/-- Mutable state of a `ConditionalExperimentalMode` instance, together with the
shared-memory register `CEStatus` (`ce_status`). `slow_lead_detected` and
`status_value` are not assigned in `__init__`; they are always written before
being read, so their initial values are irrelevant. -/
structure ConditionalExperimentalMode where
  curvature_mac : MovingAverageCalculator
  stop_light_mac : MovingAverageCalculator
  curve_detected : Bool
  experimental_mode : Bool
  stop_light_detected : Bool
  slow_lead_detected : Bool
  status_value : ℤ
  ce_status : ℤ
deriving DecidableEq

/-- State produced by `__init__` (both smoothers empty, all flags false), with a
given window capacity for each smoother and a given initial content of the
shared `CEStatus` register. -/
def ConditionalExperimentalMode.init (ws1 ws2 : ℕ) (ce0 : ℤ) :
    ConditionalExperimentalMode :=
  { curvature_mac := ⟨ws1, []⟩
    stop_light_mac := ⟨ws2, []⟩
    curve_detected := false
    experimental_mode := false
    stop_light_detected := false
    slow_lead_detected := false
    status_value := 0
    ce_status := ce0 }

/-- The six reserved externally-injected override codes `{1, 2, 3, 4, 5, 6}`. -/
def reservedCodes : List ℤ := [1, 2, 3, 4, 5, 6]

/-- The override codes `{2, 4, 6}` that force the decision true. -/
def activeOverrideCodes : List ℤ := [2, 4, 6]

/-- Membership test `self.status_value in {1, 2, 3, 4, 5, 6}`. -/
def isReservedCode (n : ℤ) : Bool := decide (n ∈ reservedCodes)

/-- Status code read at the top of `update`: the shared register when
`experimental_mode_via_press` is enabled, `0` otherwise. -/
def readStatusValue (frogpilot_toggles : FrogPilotToggles)
    (s : ConditionalExperimentalMode) : ℤ :=
  if frogpilot_toggles.experimental_mode_via_press then s.ce_status else 0

/-- Python `x ** 0.5 < v` for rational `x`, `v`: `none` models the `TypeError`
raised when `x < 0` (complex result compared with a float); otherwise the
comparison `Real.sqrt x < v`, encoded decidably as `0 < v ∧ x < v * v`. -/
def pySqrtLt (x v : ℚ) : Option Bool :=
  if x < 0 then none
  else some (decide (0 < v ∧ x < v * v))

/-- The boolean sample `curve_detected or curve_active` fed to the curvature
smoother on a cycle with nonzero curvature (see
`ConditionalExperimentalMode.curve_detection`). -/
def curveSample (road_curvature v_ego : ℚ) (prev : Bool) : Bool :=
  decide (0 < v_ego ∧ 1 / road_curvature < v_ego * v_ego)
    || (decide (0 < v_ego ∧ (9 / 10) / road_curvature < v_ego * v_ego) && prev)

/-- Translation of `ConditionalExperimentalMode.curve_detection`. The source
computes `(1 / road_curvature) ** 0.5 < v_ego` and
`(0.9 / road_curvature) ** 0.5 < v_ego and self.curve_detected` with no guard on
`road_curvature`, so a zero curvature raises `ZeroDivisionError` (modelled as
`none`) and a negative curvature raises `TypeError` (also `none`). -/
def ConditionalExperimentalMode.curve_detection (tracking_lead : Bool) (v_ego : ℚ)
    (frogpilot_toggles : FrogPilotToggles) (planner : FrogPilotPlanner)
    (fv : FrogPilotVariables) (s : ConditionalExperimentalMode) :
    Option ConditionalExperimentalMode :=
  if planner.road_curvature = 0 then none
  else
    (pySqrtLt (1 / planner.road_curvature) v_ego).bind fun curve_detected =>
      (pySqrtLt ((9 / 10) / planner.road_curvature) v_ego).map fun curve_bound =>
        let curve_active := curve_bound && s.curve_detected
        let mac := s.curvature_mac.add_data (curve_detected || curve_active)
        { s with curvature_mac := mac
                 curve_detected := decide (fv.THRESHOLD ≤ mac.get_moving_average) }

/-- Translation of `ConditionalExperimentalMode.slow_lead`. -/
def ConditionalExperimentalMode.slow_lead (tracking_lead : Bool) (v_lead : ℚ)
    (frogpilot_toggles : FrogPilotToggles) (planner : FrogPilotPlanner)
    (s : ConditionalExperimentalMode) : ConditionalExperimentalMode :=
  if tracking_lead then
    let slower_lead := planner.slower_lead && frogpilot_toggles.conditional_slower_lead
    let stopped_lead := frogpilot_toggles.conditional_stopped_lead && decide (v_lead < 1)
    { s with slow_lead_detected := slower_lead || stopped_lead }
  else
    { s with slow_lead_detected := false }

/-- Translation of `ConditionalExperimentalMode.stop_sign_and_light`. -/
def ConditionalExperimentalMode.stop_sign_and_light (tracking_lead : Bool)
    (v_ego : ℚ) (frogpilot_toggles : FrogPilotToggles) (planner : FrogPilotPlanner)
    (fv : FrogPilotVariables) (s : ConditionalExperimentalMode) :
    ConditionalExperimentalMode :=
  if !(s.curve_detected || tracking_lead) then
    let model_stopping :=
      decide (planner.model_length < v_ego * frogpilot_toggles.conditional_model_stop_time)
    let mac := s.stop_light_mac.add_data (planner.model_stopped || model_stopping)
    { s with stop_light_mac := mac
             stop_light_detected := decide (fv.THRESHOLD ≤ mac.get_moving_average) }
  else
    { s with stop_light_mac := s.stop_light_mac.reset_data
             stop_light_detected := false }

/-- Translation of `ConditionalExperimentalMode.update_conditions`: run the three
detectors in order (curve, slow lead, stop sign/light). -/
def ConditionalExperimentalMode.update_conditions (tracking_lead : Bool)
    (v_ego v_lead : ℚ) (frogpilot_toggles : FrogPilotToggles)
    (planner : FrogPilotPlanner) (fv : FrogPilotVariables)
    (s : ConditionalExperimentalMode) : Option ConditionalExperimentalMode :=
  (s.curve_detection tracking_lead v_ego frogpilot_toggles planner fv).map fun s1 =>
    let s2 := s1.slow_lead tracking_lead v_lead frogpilot_toggles planner
    s2.stop_sign_and_light tracking_lead v_ego frogpilot_toggles planner fv

/-- Condition of rule 1 without a followed lead:
`frogpilot_toggles.conditional_limit > v_ego >= 1 and not following_lead`. -/
def below_speed (frogpilot_toggles : FrogPilotToggles) (following_lead : Bool)
    (v_ego : ℚ) : Bool :=
  decide (v_ego < frogpilot_toggles.conditional_limit) && decide (1 ≤ v_ego)
    && !following_lead

/-- Condition of rule 1 with a followed lead:
`frogpilot_toggles.conditional_limit_lead > v_ego >= 1 and following_lead`. -/
def below_speed_with_lead (frogpilot_toggles : FrogPilotToggles)
    (following_lead : Bool) (v_ego : ℚ) : Bool :=
  decide (v_ego < frogpilot_toggles.conditional_limit_lead) && decide (1 ≤ v_ego)
    && following_lead

/-- Local variable `desired_lane` of `check_conditions`: the lane width on the
side of the active blinker. -/
def desired_lane (carState : CarState) (planner : FrogPilotPlanner) : ℚ :=
  if carState.leftBlinker then planner.lane_width_left else planner.lane_width_right

/-- Local variable `lane_available` of `check_conditions`. -/
def lane_available (carState : CarState) (frogpilot_toggles : FrogPilotToggles)
    (planner : FrogPilotPlanner) : Bool :=
  decide (frogpilot_toggles.lane_detection_width ≤ desired_lane carState planner)
    || !frogpilot_toggles.conditional_signal_lane_detection
    || !frogpilot_toggles.lane_detection

/-- Condition of rule 2 (blinker with narrow lane). -/
def signal_rule (carState : CarState) (frogpilot_toggles : FrogPilotToggles)
    (planner : FrogPilotPlanner) (v_ego : ℚ) : Bool :=
  decide (v_ego < frogpilot_toggles.conditional_signal)
    && (carState.leftBlinker || carState.rightBlinker)
    && !(lane_available carState frogpilot_toggles planner)

/-- Local variable `approaching_maneuver` of `check_conditions`. -/
def approaching_maneuver (frogpilotNavigation : FrogPilotNavigation)
    (modelData : ModelData) : Bool :=
  modelData.navEnabled && (frogpilotNavigation.approachingIntersection
    || frogpilotNavigation.approachingTurn)

/-- Translation of `ConditionalExperimentalMode.check_conditions`. In the source
the method returns a boolean and mutates `self.status_value` when a rule fires;
here it returns the pair (decision, new `status_value`), the second component
being the unchanged `s.status_value` when no rule matches. -/
def ConditionalExperimentalMode.check_conditions (carState : CarState)
    (frogpilotNavigation : FrogPilotNavigation) (modelData : ModelData)
    (following_lead : Bool) (v_ego v_lead : ℚ)
    (frogpilot_toggles : FrogPilotToggles) (planner : FrogPilotPlanner)
    (s : ConditionalExperimentalMode) : Bool × ℤ :=
  if below_speed frogpilot_toggles following_lead v_ego
      || below_speed_with_lead frogpilot_toggles following_lead v_ego then
    (true, if following_lead then 7 else 8)
  else
    if signal_rule carState frogpilot_toggles planner v_ego then
      (true, 9)
    else
      if frogpilot_toggles.conditional_navigation
          && approaching_maneuver frogpilotNavigation modelData
          && (frogpilot_toggles.conditional_navigation_lead || !following_lead) then
        (true, if frogpilotNavigation.approachingIntersection then 10 else 11)
      else if frogpilot_toggles.conditional_curves && s.curve_detected
          && (frogpilot_toggles.conditional_curves_lead || !following_lead) then
        (true, 12)
      else if frogpilot_toggles.conditional_lead && s.slow_lead_detected then
        (true, if v_lead < 1 then 13 else 14)
      else if decide (frogpilot_toggles.conditional_model_stop_time ≠ 0)
          && s.stop_light_detected then
        (true, if !planner.forcing_stop then 15 else 16)
      else if planner.slc_experimental_mode then
        (true, 17)
      else
        (false, s.status_value)

/-- Translation of `ConditionalExperimentalMode.update`. Reads the status code,
then either runs the normal path (detectors, evaluator, and a write of the
computed code — or 0 — back to the shared register) when the code is not
reserved and the vehicle is not at standstill, or else the held path (decision
derived from the code and the previous decision; `stop_light_detected` masked by
`&=` with the code not being reserved). -/
def ConditionalExperimentalMode.update (carState : CarState)
    (frogpilotNavigation : FrogPilotNavigation) (modelData : ModelData)
    (v_ego v_lead : ℚ) (frogpilot_toggles : FrogPilotToggles)
    (planner : FrogPilotPlanner) (fv : FrogPilotVariables)
    (s : ConditionalExperimentalMode) : Option ConditionalExperimentalMode :=
  let status_value := readStatusValue frogpilot_toggles s
  if !(isReservedCode status_value) && !carState.standstill then
    (ConditionalExperimentalMode.update_conditions planner.tracking_lead
        v_ego v_lead frogpilot_toggles planner fv
        { s with status_value := status_value }).map fun s1 =>
      let r := s1.check_conditions carState frogpilotNavigation modelData
        planner.following_lead v_ego v_lead frogpilot_toggles planner
      { s1 with experimental_mode := r.1
                status_value := r.2
                ce_status := if r.1 then r.2 else 0 }
  else
    some { s with
      status_value := status_value
      experimental_mode := decide (status_value ∈ activeOverrideCodes)
        || (carState.standstill && s.experimental_mode)
      stop_light_detected := s.stop_light_detected && !(isReservedCode status_value) }

/-- Inputs of one `update` call (everything external that can change between
cycles). -/
structure CycleInputs where
  carState : CarState
  frogpilotNavigation : FrogPilotNavigation
  modelData : ModelData
  v_ego : ℚ
  v_lead : ℚ
  frogpilot_toggles : FrogPilotToggles
  planner : FrogPilotPlanner
deriving DecidableEq

/-- Run `update` over a list of per-cycle inputs, propagating the state across
cycles; `none` as soon as one cycle raises. -/
def updateRun (fv : FrogPilotVariables) :
    List CycleInputs → ConditionalExperimentalMode → Option ConditionalExperimentalMode
  | [], s => some s
  | i :: l, s =>
    (s.update i.carState i.frogpilotNavigation i.modelData i.v_ego i.v_lead
      i.frogpilot_toggles i.planner fv).bind (updateRun fv l)

/-! Concrete fixtures used by witnesses and counterexamples. -/

/-- Toggle fixture with every feature enabled and manual press override on. -/
def tgA : FrogPilotToggles :=
  { experimental_mode_via_press := true
    conditional_limit := 10
    conditional_limit_lead := 10
    conditional_signal := 0
    conditional_signal_lane_detection := true
    lane_detection := true
    lane_detection_width := 3
    conditional_navigation := true
    conditional_navigation_lead := true
    conditional_curves := true
    conditional_curves_lead := true
    conditional_lead := true
    conditional_slower_lead := true
    conditional_stopped_lead := true
    conditional_model_stop_time := 4 }

/-- Toggle fixture with manual press override disabled. -/
def tgB : FrogPilotToggles := { tgA with experimental_mode_via_press := false }

/-- Car state fixture: moving, no blinker. -/
def csMoving : CarState := ⟨false, false, false⟩

/-- Car state fixture: at standstill, no blinker. -/
def csStop : CarState := ⟨true, false, false⟩

/-- Navigation fixture: no upcoming maneuver. -/
def navNone : FrogPilotNavigation := ⟨false, false⟩

/-- Navigation fixture: approaching both an intersection and a turn. -/
def navBoth : FrogPilotNavigation := ⟨true, true⟩

/-- Model-data fixture: navigation disabled. -/
def mdOff : ModelData := ⟨false⟩

/-- Model-data fixture: navigation enabled. -/
def mdOn : ModelData := ⟨true⟩

/-- Planner fixture: no lead, gentle curvature 1, long model length. -/
def plannerA : FrogPilotPlanner :=
  { tracking_lead := false
    following_lead := false
    slower_lead := false
    lane_width_left := 0
    lane_width_right := 0
    road_curvature := 1
    model_length := 100
    model_stopped := false
    forcing_stop := false
    slc_experimental_mode := false }

/-- Planner fixture with a road curvature of exactly zero. -/
def plannerZero : FrogPilotPlanner := { plannerA with road_curvature := 0 }

/-- Detection-threshold fixture: one half. -/
def fvA : FrogPilotVariables := ⟨1 / 2⟩

/-- Cycle fixture: standstill with override features on. -/
def iStand : CycleInputs := ⟨csStop, navNone, mdOff, 0, 0, tgA, plannerA⟩

/-- Cycle fixture: moving at speed 5 with manual press override disabled. -/
def iNormal : CycleInputs := ⟨csMoving, navNone, mdOff, 5, 0, tgB, plannerA⟩

/-- Planner fixture with a positive road curvature of 1/100. -/
def plannerCurve : FrogPilotPlanner := { plannerA with road_curvature := 1 / 100 }

/-! Helper lemmas shared by the claim theorems. -/

/-- Helper: when the branch guard of `update` is false, `update` returns the held
state (decision from the override code and the previous decision,
`stop_light_detected` masked, detectors and the shared register untouched). -/
theorem update_held_eq (carState : CarState) (frogpilotNavigation : FrogPilotNavigation)
    (modelData : ModelData) (v_ego v_lead : ℚ) (frogpilot_toggles : FrogPilotToggles)
    (planner : FrogPilotPlanner) (fv : FrogPilotVariables)
    (s : ConditionalExperimentalMode)
    (h : (!(isReservedCode (readStatusValue frogpilot_toggles s))
        && !carState.standstill) = false) :
    s.update carState frogpilotNavigation modelData v_ego v_lead frogpilot_toggles
        planner fv =
      some { s with
        status_value := readStatusValue frogpilot_toggles s
        experimental_mode :=
          decide (readStatusValue frogpilot_toggles s ∈ activeOverrideCodes)
            || (carState.standstill && s.experimental_mode)
        stop_light_detected := s.stop_light_detected
          && !(isReservedCode (readStatusValue frogpilot_toggles s)) } := by
  simp only [ConditionalExperimentalMode.update, h, Bool.false_eq_true, if_false]

/-- Helper: when the branch guard of `update` is true and the detectors succeed,
`update` returns the evaluator's decision, its status code, and writes the code
(or 0) to the shared register. -/
theorem update_normal_eq (carState : CarState) (frogpilotNavigation : FrogPilotNavigation)
    (modelData : ModelData) (v_ego v_lead : ℚ) (frogpilot_toggles : FrogPilotToggles)
    (planner : FrogPilotPlanner) (fv : FrogPilotVariables)
    (s s1 : ConditionalExperimentalMode)
    (h : (!(isReservedCode (readStatusValue frogpilot_toggles s))
        && !carState.standstill) = true)
    (h1 : ConditionalExperimentalMode.update_conditions planner.tracking_lead v_ego
        v_lead frogpilot_toggles planner fv
        { s with status_value := readStatusValue frogpilot_toggles s } = some s1) :
    s.update carState frogpilotNavigation modelData v_ego v_lead frogpilot_toggles
        planner fv =
      some { s1 with
        experimental_mode := (s1.check_conditions carState frogpilotNavigation
          modelData planner.following_lead v_ego v_lead frogpilot_toggles planner).1
        status_value := (s1.check_conditions carState frogpilotNavigation
          modelData planner.following_lead v_ego v_lead frogpilot_toggles planner).2
        ce_status :=
          if (s1.check_conditions carState frogpilotNavigation modelData
              planner.following_lead v_ego v_lead frogpilot_toggles planner).1 then
            (s1.check_conditions carState frogpilotNavigation modelData
              planner.following_lead v_ego v_lead frogpilot_toggles planner).2
          else 0 } := by
  simp only [ConditionalExperimentalMode.update, h, if_true, h1, Option.map_some']

/-- Helper: a status code of at least 7 is not one of the reserved override
codes. -/
theorem isReservedCode_eq_false_of_seven_le (n : ℤ) (h : 7 ≤ n) :
    isReservedCode n = false := by
  simp only [isReservedCode, reservedCodes, List.mem_cons, List.not_mem_nil,
    or_false, decide_eq_false_iff_not]
  omega

/-- Helper: the encoding `0 < v ∧ x < v * v` used by `pySqrtLt` agrees with the
real square-root comparison `sqrt x < v` for every nonnegative rational `x`. -/
theorem sqrt_lt_iff_rat (x v : ℚ) (hx : 0 ≤ x) :
    Real.sqrt (x : ℝ) < (v : ℝ) ↔ (0 < v ∧ x < v * v) := by
  constructor
  · intro h
    have hv : (0 : ℝ) < (v : ℝ) := lt_of_le_of_lt (Real.sqrt_nonneg _) h
    have hv' : (0 : ℚ) < v := by exact_mod_cast hv
    refine ⟨hv', ?_⟩
    have hx2 : (x : ℝ) < (v : ℝ) ^ 2 := (Real.sqrt_lt' hv).mp h
    have hmul : (x : ℝ) < (v : ℝ) * (v : ℝ) := by nlinarith
    exact_mod_cast hmul
  · rintro ⟨hv, hlt⟩
    have hv' : (0 : ℝ) < (v : ℝ) := by exact_mod_cast hv
    refine (Real.sqrt_lt' hv').mpr ?_
    have hmul : (x : ℝ) < (v : ℝ) * (v : ℝ) := by exact_mod_cast hlt
    nlinarith

/-- Helper: `pySqrtLt` succeeds on any nonnegative argument, returning the
decidable encoding of the square-root comparison. -/
theorem pySqrtLt_eq_some (x v : ℚ) (hx : 0 ≤ x) :
    pySqrtLt x v = some (decide (0 < v ∧ x < v * v)) := by
  rw [pySqrtLt, if_neg (not_lt.mpr hx)]

/-- Helper: `check_conditions` either fires some rule — decision `true` with a
code between 7 and 17 — or fires none — decision `false` with `status_value`
left unchanged. -/
theorem check_conditions_cases (carState : CarState)
    (frogpilotNavigation : FrogPilotNavigation) (modelData : ModelData)
    (following_lead : Bool) (v_ego v_lead : ℚ)
    (frogpilot_toggles : FrogPilotToggles) (planner : FrogPilotPlanner)
    (s : ConditionalExperimentalMode) :
    s.check_conditions carState frogpilotNavigation modelData following_lead v_ego
        v_lead frogpilot_toggles planner = (false, s.status_value)
    ∨ ((s.check_conditions carState frogpilotNavigation modelData following_lead
          v_ego v_lead frogpilot_toggles planner).1 = true
        ∧ 7 ≤ (s.check_conditions carState frogpilotNavigation modelData
            following_lead v_ego v_lead frogpilot_toggles planner).2
        ∧ (s.check_conditions carState frogpilotNavigation modelData following_lead
            v_ego v_lead frogpilot_toggles planner).2 ≤ 17) := by
  unfold ConditionalExperimentalMode.check_conditions
  repeat' split
  all_goals first
    | (left; rfl)
    | (right; exact ⟨rfl, by norm_num, by norm_num⟩)

/-- Helper: under standstill the guard of the normal path is false, so `update`
takes the held branch; a true decision is preserved. Iterated over a run of
standstill cycles, the decision therefore stays true. -/
theorem updateRun_standstill_sticky (fv : FrogPilotVariables) :
    ∀ (l : List CycleInputs) (s s2 : ConditionalExperimentalMode),
      (∀ i ∈ l, i.carState.standstill = true) → s.experimental_mode = true →
      updateRun fv l s = some s2 → s2.experimental_mode = true := by
  intro l
  induction l with
  | nil =>
    intro s s2 _ hem h
    simp only [updateRun, Option.some.injEq] at h
    exact h ▸ hem
  | cons i l ih =>
    intro s s2 hall hem h
    have hstand : i.carState.standstill = true := hall i (List.mem_cons_self i l)
    have hcond : (!(isReservedCode (readStatusValue i.frogpilot_toggles s))
        && !i.carState.standstill) = false := by
      simp [hstand]
    rw [updateRun, update_held_eq i.carState i.frogpilotNavigation i.modelData
      i.v_ego i.v_lead i.frogpilot_toggles i.planner fv s hcond] at h
    simp only [Option.some_bind] at h
    refine ih _ s2 (fun j hj => hall j (List.mem_cons_of_mem i hj)) ?_ h
    simp [hstand, hem]

/-- Helper: after `stop_sign_and_light`, a set curve flag forces a cleared stop
flag — the gate either leaves the curve flag false or clears the stop flag. -/
theorem stop_sign_and_light_mutex (tracking_lead : Bool) (v_ego : ℚ)
    (frogpilot_toggles : FrogPilotToggles) (planner : FrogPilotPlanner)
    (fv : FrogPilotVariables) (s : ConditionalExperimentalMode) :
    (s.stop_sign_and_light tracking_lead v_ego frogpilot_toggles planner
        fv).curve_detected = true →
    (s.stop_sign_and_light tracking_lead v_ego frogpilot_toggles planner
        fv).stop_light_detected = false := by
  unfold ConditionalExperimentalMode.stop_sign_and_light
  split
  · next hcond =>
    intro hc
    simp only at hc
    simp only [Bool.not_eq_eq_eq_not, Bool.not_true, Bool.or_eq_false_iff] at hcond
    exact absurd hc (by simp [hcond.1])
  · intro _
    rfl

/-- Helper: any state returned by `update_conditions` satisfies the
curve-stop exclusion, since `stop_sign_and_light` runs last. -/
theorem update_conditions_mutex (tracking_lead : Bool) (v_ego v_lead : ℚ)
    (frogpilot_toggles : FrogPilotToggles) (planner : FrogPilotPlanner)
    (fv : FrogPilotVariables) (s s1 : ConditionalExperimentalMode)
    (h : ConditionalExperimentalMode.update_conditions tracking_lead v_ego v_lead
      frogpilot_toggles planner fv s = some s1) :
    s1.curve_detected = true → s1.stop_light_detected = false := by
  unfold ConditionalExperimentalMode.update_conditions at h
  rcases Option.map_eq_some'.mp h with ⟨sa, _, hmap⟩
  exact hmap ▸ stop_sign_and_light_mutex tracking_lead v_ego frogpilot_toggles
    planner fv _

/-- Helper: one `update` step preserves the curve-stop exclusion: the normal
path re-establishes it unconditionally and the held path can only clear
`stop_light_detected`. -/
theorem update_mutex_step (carState : CarState)
    (frogpilotNavigation : FrogPilotNavigation) (modelData : ModelData)
    (v_ego v_lead : ℚ) (frogpilot_toggles : FrogPilotToggles)
    (planner : FrogPilotPlanner) (fv : FrogPilotVariables)
    (s s1 : ConditionalExperimentalMode)
    (hpre : s.curve_detected = true → s.stop_light_detected = false)
    (h : s.update carState frogpilotNavigation modelData v_ego v_lead
      frogpilot_toggles planner fv = some s1) :
    s1.curve_detected = true → s1.stop_light_detected = false := by
  simp only [ConditionalExperimentalMode.update] at h
  split at h
  · rcases Option.map_eq_some'.mp h with ⟨sa, ha, hmap⟩
    intro hc
    have hmutex := update_conditions_mutex planner.tracking_lead v_ego v_lead
      frogpilot_toggles planner fv _ sa ha
    rw [← hmap] at hc ⊢
    simp only at hc ⊢
    exact hmutex hc
  · rcases Option.some.inj h with rfl
    intro hc
    simp only at hc ⊢
    rw [hpre hc]
    rfl

/-- Helper: the curve-stop exclusion is preserved along any run of `update`
cycles. -/
theorem updateRun_mutex (fv : FrogPilotVariables) :
    ∀ (l : List CycleInputs) (s s2 : ConditionalExperimentalMode),
      (s.curve_detected = true → s.stop_light_detected = false) →
      updateRun fv l s = some s2 →
      (s2.curve_detected = true → s2.stop_light_detected = false) := by
  intro l
  induction l with
  | nil =>
    intro s s2 hpre h
    simp only [updateRun, Option.some.injEq] at h
    exact h ▸ hpre
  | cons i l ih =>
    intro s s2 hpre h
    rw [updateRun] at h
    rcases Option.bind_eq_some.mp h with ⟨sa, ha, hrest⟩
    exact ih sa s2 (update_mutex_step i.carState i.frogpilotNavigation i.modelData
      i.v_ego i.v_lead i.frogpilot_toggles i.planner fv s sa hpre ha) hrest

/-- Claim C1, counterexample. With the externally-read status code 1 (a reserved
override value) and the vehicle moving (`standstill = false`), the claim predicts
the normal path: the three detectors are updated (each smoother would gain a
sample) and a newly-computed status code (here 8, since the low-speed rule fires
at `v_ego = 5 < conditional_limit = 10` with no lead) would be written to the
shared store. The code instead takes the held branch: both smoother windows stay
empty, the decision is false, and the shared store still holds 1. -/
theorem C1_counterexample :
    ((ConditionalExperimentalMode.init 10 10 1).update csMoving navNone mdOff 5 0
        tgA plannerA fvA).map
      (fun s1 => (s1.curvature_mac.data.length, s1.stop_light_mac.data.length,
        s1.ce_status, s1.experimental_mode)) = some (0, 0, 1, false)
    ∧ isReservedCode 1 = true ∧ csMoving.standstill = false :=
  ⟨by decide, by decide, rfl⟩

/-- Claim C1, amended: whenever the externally-read status code is one of the six
reserved override values, `update` takes the held branch regardless of
standstill — detectors and evaluator are skipped, nothing is written back to the
shared store, the decision becomes (code in {2, 4, 6}) OR (standstill AND
previous decision), and `stop_light_detected` is forced false. The normal path
runs only when the code is not reserved AND the vehicle is not at standstill. -/
theorem C1_reserved_blocks_evaluation (carState : CarState)
    (frogpilotNavigation : FrogPilotNavigation) (modelData : ModelData)
    (v_ego v_lead : ℚ) (frogpilot_toggles : FrogPilotToggles)
    (planner : FrogPilotPlanner) (fv : FrogPilotVariables)
    (s : ConditionalExperimentalMode)
    (h : isReservedCode (readStatusValue frogpilot_toggles s) = true) :
    s.update carState frogpilotNavigation modelData v_ego v_lead frogpilot_toggles
        planner fv =
      some { s with
        status_value := readStatusValue frogpilot_toggles s
        experimental_mode :=
          decide (readStatusValue frogpilot_toggles s ∈ activeOverrideCodes)
            || (carState.standstill && s.experimental_mode)
        stop_light_detected := false } := by
  rw [update_held_eq carState frogpilotNavigation modelData v_ego v_lead
    frogpilot_toggles planner fv s (by simp [h])]
  simp [h]

/-- Witness for C1 (amended): concrete cycle with reserved code 3 while moving;
the held state is returned unchanged except for the decision fields. -/
theorem C1_witness :
    isReservedCode (readStatusValue tgA (ConditionalExperimentalMode.init 10 10 3))
      = true
    ∧ (ConditionalExperimentalMode.init 10 10 3).update csMoving navNone mdOff 5 0
        tgA plannerA fvA =
      some { ConditionalExperimentalMode.init 10 10 3 with
        status_value := readStatusValue tgA (ConditionalExperimentalMode.init 10 10 3)
        experimental_mode :=
          decide (readStatusValue tgA (ConditionalExperimentalMode.init 10 10 3)
              ∈ activeOverrideCodes)
            || (csMoving.standstill
              && (ConditionalExperimentalMode.init 10 10 3).experimental_mode)
        stop_light_detected := false } :=
  ⟨by decide, C1_reserved_blocks_evaluation csMoving navNone mdOff 5 0 tgA plannerA
    fvA (ConditionalExperimentalMode.init 10 10 3) (by decide)⟩

/-- Claim C2, evaluated at the failing input. The source computes
`(1 / self.frogpilot_planner.road_curvature) ** 0.5` with no guard: at a road
curvature of exactly zero, `curve_detection` raises `ZeroDivisionError`
(modelled as `none`) and the whole `update` cycle dies with it, instead of
treating the cycle as "no curve" as the specification requires. -/
theorem C2_zero_curvature_division :
    plannerZero.road_curvature = 0
    ∧ (ConditionalExperimentalMode.init 10 10 0).curve_detection false 5 tgA
        plannerZero fvA = none
    ∧ (ConditionalExperimentalMode.init 10 10 0).update csMoving navNone mdOff 5 0
        tgB plannerZero fvA = none :=
  ⟨rfl, rfl, rfl⟩

/-- Claim C4: with a reserved code read and the vehicle at standstill, detector
and evaluator updates are skipped (smoothers and the shared store are returned
untouched) and the decision equals (code in {2, 4, 6}) OR the previous decision;
moreover a decision that is true on entering standstill stays true through any
run of standstill cycles. -/
theorem C4_standstill_override_hold (carState : CarState)
    (frogpilotNavigation : FrogPilotNavigation) (modelData : ModelData)
    (v_ego v_lead : ℚ) (frogpilot_toggles : FrogPilotToggles)
    (planner : FrogPilotPlanner) (fv : FrogPilotVariables)
    (s : ConditionalExperimentalMode)
    (h1 : isReservedCode (readStatusValue frogpilot_toggles s) = true)
    (h2 : carState.standstill = true) :
    (s.update carState frogpilotNavigation modelData v_ego v_lead frogpilot_toggles
        planner fv =
      some { s with
        status_value := readStatusValue frogpilot_toggles s
        experimental_mode :=
          decide (readStatusValue frogpilot_toggles s ∈ activeOverrideCodes)
            || s.experimental_mode
        stop_light_detected := false })
    ∧ (∀ (l : List CycleInputs) (s2 : ConditionalExperimentalMode),
        s.experimental_mode = true →
        (∀ i ∈ l, i.carState.standstill = true) →
        updateRun fv l s = some s2 → s2.experimental_mode = true) := by
  constructor
  · rw [update_held_eq carState frogpilotNavigation modelData v_ego v_lead
      frogpilot_toggles planner fv s (by simp [h2])]
    simp [h1, h2]
  · intro l s2 hem hall h
    exact updateRun_standstill_sticky fv l s s2 hall hem h

/-- Witness for C4: reserved code 3 (outside {2, 4, 6}) at standstill with the
decision previously true; after a standstill cycle the decision is still true. -/
theorem C4_witness :
    isReservedCode (readStatusValue tgA
      { ConditionalExperimentalMode.init 10 10 3 with experimental_mode := true })
      = true
    ∧ csStop.standstill = true
    ∧ ({ ConditionalExperimentalMode.init 10 10 3 with
          experimental_mode := true
          status_value := 3
          stop_light_detected := false } :
        ConditionalExperimentalMode).experimental_mode = true :=
  ⟨by decide, rfl,
    (C4_standstill_override_hold csStop navNone mdOff 0 0 tgA plannerA fvA
        { ConditionalExperimentalMode.init 10 10 3 with experimental_mode := true }
        (by decide) rfl).2
      [iStand] _ rfl
      (by intro i hi; rcases List.mem_singleton.mp hi with rfl; rfl)
      (by decide)⟩

/-- Claim C7: whenever the held branch of `update` runs with the read status code
in the reserved set, `stop_light_detected` is forced to false (the `&=` mask
clears it), whatever its previous value. -/
theorem C7_reserved_clears_stop_flag (carState : CarState)
    (frogpilotNavigation : FrogPilotNavigation) (modelData : ModelData)
    (v_ego v_lead : ℚ) (frogpilot_toggles : FrogPilotToggles)
    (planner : FrogPilotPlanner) (fv : FrogPilotVariables)
    (s : ConditionalExperimentalMode)
    (h : isReservedCode (readStatusValue frogpilot_toggles s) = true) :
    ∀ s1, s.update carState frogpilotNavigation modelData v_ego v_lead
        frogpilot_toggles planner fv = some s1 →
      s1.stop_light_detected = false := by
  intro s1 hu
  rw [update_held_eq carState frogpilotNavigation modelData v_ego v_lead
    frogpilot_toggles planner fv s (by simp [h])] at hu
  rcases Option.some.inj hu with rfl
  simp [h]

/-- Witness for C7: at standstill with reserved code 2 and `stop_light_detected`
true on the preceding cycle, the update forces the flag false. -/
theorem C7_witness :
    ({ ConditionalExperimentalMode.init 10 10 2 with stop_light_detected := true } :
        ConditionalExperimentalMode).stop_light_detected = true
    ∧ isReservedCode (readStatusValue tgA
        { ConditionalExperimentalMode.init 10 10 2 with stop_light_detected := true })
      = true
    ∧ ({ ConditionalExperimentalMode.init 10 10 2 with
          experimental_mode := true
          stop_light_detected := false
          status_value := 2 } :
        ConditionalExperimentalMode).stop_light_detected = false :=
  ⟨rfl, by decide,
    C7_reserved_clears_stop_flag csStop navNone mdOff 0 0 tgA plannerA fvA
      { ConditionalExperimentalMode.init 10 10 2 with stop_light_detected := true }
      (by decide) _ (by decide)⟩

/-- Claim C3: the evaluator is a strict priority chain. Whenever rule 1's
condition holds — in particular also when rule 3 (navigation maneuver) is
simultaneously satisfied — `check_conditions` answers true with rule 1's code
(7 with a followed lead, 8 without), never codes 10/11; when the decision is
false no rule matched and `status_value` is unchanged; and on any normal-path
cycle a false decision writes code 0 to the shared store. -/
theorem C3_rule_priority (carState : CarState)
    (frogpilotNavigation : FrogPilotNavigation) (modelData : ModelData)
    (following_lead : Bool) (v_ego v_lead : ℚ)
    (frogpilot_toggles : FrogPilotToggles) (planner : FrogPilotPlanner)
    (fv : FrogPilotVariables) (s : ConditionalExperimentalMode) :
    ((below_speed frogpilot_toggles following_lead v_ego
        || below_speed_with_lead frogpilot_toggles following_lead v_ego) = true →
      s.check_conditions carState frogpilotNavigation modelData following_lead
          v_ego v_lead frogpilot_toggles planner =
        (true, if following_lead then 7 else 8))
    ∧ ((s.check_conditions carState frogpilotNavigation modelData following_lead
          v_ego v_lead frogpilot_toggles planner).1 = false →
        s.check_conditions carState frogpilotNavigation modelData following_lead
          v_ego v_lead frogpilot_toggles planner = (false, s.status_value))
    ∧ (∀ s2, (!(isReservedCode (readStatusValue frogpilot_toggles s))
          && !carState.standstill) = true →
        s.update carState frogpilotNavigation modelData v_ego v_lead
          frogpilot_toggles planner fv = some s2 →
        s2.experimental_mode = false → s2.ce_status = 0) := by
  refine ⟨?_, ?_, ?_⟩
  · intro h
    unfold ConditionalExperimentalMode.check_conditions
    rw [if_pos h]
  · intro h
    rcases check_conditions_cases carState frogpilotNavigation modelData
      following_lead v_ego v_lead frogpilot_toggles planner s with hc | hc
    · exact hc
    · rw [hc.1] at h
      exact Bool.noConfusion h
  · intro s2 hc hu hem
    cases h1 : ConditionalExperimentalMode.update_conditions planner.tracking_lead
        v_ego v_lead frogpilot_toggles planner fv
        { s with status_value := readStatusValue frogpilot_toggles s } with
    | none => simp [ConditionalExperimentalMode.update, hc, h1] at hu
    | some s1 =>
      rw [update_normal_eq carState frogpilotNavigation modelData v_ego v_lead
        frogpilot_toggles planner fv s s1 hc h1] at hu
      rcases Option.some.inj hu with rfl
      dsimp only at hem ⊢
      simp [hem]

/-- Witness for C3: a cycle whose inputs satisfy both rule 1 (speed 5 below the
limit 10, no lead) and rule 3 (navigation enabled and approaching both an
intersection and a turn); the evaluator answers with rule 1's code 8. -/
theorem C3_witness :
    (below_speed tgB false 5 || below_speed_with_lead tgB false 5) = true
    ∧ (tgB.conditional_navigation && approaching_maneuver navBoth mdOn
        && (tgB.conditional_navigation_lead || !false)) = true
    ∧ (ConditionalExperimentalMode.init 10 10 0).check_conditions csMoving navBoth
        mdOn false 5 0 tgB plannerA = (true, 8) :=
  ⟨by decide, by decide,
    (C3_rule_priority csMoving navBoth mdOn false 5 0 tgB plannerA fvA
      (ConditionalExperimentalMode.init 10 10 0)).1 (by decide)⟩

/-- Claim C8: when the navigation-maneuver rule fires, the code is 10 whenever
the approaching-intersection flag is set (in particular when both flags are
true); conversely a result of code 11 can only arise with the turn flag set and
the intersection flag clear. -/
theorem C8_nav_tiebreak (carState : CarState)
    (frogpilotNavigation : FrogPilotNavigation) (modelData : ModelData)
    (following_lead : Bool) (v_ego v_lead : ℚ)
    (frogpilot_toggles : FrogPilotToggles) (planner : FrogPilotPlanner)
    (s : ConditionalExperimentalMode) :
    ((below_speed frogpilot_toggles following_lead v_ego
        || below_speed_with_lead frogpilot_toggles following_lead v_ego) = false →
      signal_rule carState frogpilot_toggles planner v_ego = false →
      (frogpilot_toggles.conditional_navigation
        && approaching_maneuver frogpilotNavigation modelData
        && (frogpilot_toggles.conditional_navigation_lead || !following_lead))
        = true →
      frogpilotNavigation.approachingIntersection = true →
      s.check_conditions carState frogpilotNavigation modelData following_lead
          v_ego v_lead frogpilot_toggles planner = (true, 10))
    ∧ (s.check_conditions carState frogpilotNavigation modelData following_lead
          v_ego v_lead frogpilot_toggles planner = (true, 11) →
        frogpilotNavigation.approachingTurn = true
          ∧ frogpilotNavigation.approachingIntersection = false) := by
  constructor
  · intro h1 h2 h3 hint
    simp [ConditionalExperimentalMode.check_conditions, h1, h2, h3, hint]
  · intro h
    unfold ConditionalExperimentalMode.check_conditions at h
    repeat' split at h
    all_goals simp_all [approaching_maneuver]

/-- Witness for C8: with both navigation flags true (and no higher-priority rule
matching at speed 30), the fired code is 10, the intersection code. -/
theorem C8_witness :
    navBoth.approachingIntersection = true ∧ navBoth.approachingTurn = true
    ∧ (ConditionalExperimentalMode.init 10 10 0).check_conditions csMoving navBoth
        mdOn false 30 0 tgB plannerA = (true, 10) :=
  ⟨rfl, rfl,
    (C8_nav_tiebreak csMoving navBoth mdOn false 30 0 tgB plannerA
      (ConditionalExperimentalMode.init 10 10 0)).1
      (by decide) (by decide) (by decide) rfl⟩

/-- Claim C9: on any normal-path cycle the integer written back to the shared
store is either 0 (decision false) or the firing rule's code, which lies in
7..17; in particular it is never one of the reserved override values 1..6, so
the module's own output cannot re-trigger the override branch. -/
theorem C9_normal_write_not_reserved (carState : CarState)
    (frogpilotNavigation : FrogPilotNavigation) (modelData : ModelData)
    (v_ego v_lead : ℚ) (frogpilot_toggles : FrogPilotToggles)
    (planner : FrogPilotPlanner) (fv : FrogPilotVariables)
    (s : ConditionalExperimentalMode)
    (hc : (!(isReservedCode (readStatusValue frogpilot_toggles s))
      && !carState.standstill) = true) :
    ∀ s2, s.update carState frogpilotNavigation modelData v_ego v_lead
        frogpilot_toggles planner fv = some s2 →
      isReservedCode s2.ce_status = false
        ∧ (s2.ce_status = 0 ∨ (7 ≤ s2.ce_status ∧ s2.ce_status ≤ 17)) := by
  intro s2 hu
  cases h1 : ConditionalExperimentalMode.update_conditions planner.tracking_lead
      v_ego v_lead frogpilot_toggles planner fv
      { s with status_value := readStatusValue frogpilot_toggles s } with
  | none => simp [ConditionalExperimentalMode.update, hc, h1] at hu
  | some s1 =>
    rw [update_normal_eq carState frogpilotNavigation modelData v_ego v_lead
      frogpilot_toggles planner fv s s1 hc h1] at hu
    rcases Option.some.inj hu with rfl
    dsimp only
    rcases check_conditions_cases carState frogpilotNavigation modelData
      planner.following_lead v_ego v_lead frogpilot_toggles planner s1 with
      hcase | hcase
    · rw [hcase]
      simp [isReservedCode, reservedCodes]
    · have h7 := hcase.2.1
      have h17 := hcase.2.2
      simp only [hcase.1, if_true]
      exact ⟨isReservedCode_eq_false_of_seven_le _ h7, Or.inr ⟨h7, h17⟩⟩

/-- Witness for C9: concrete normal-path cycle (override feature off, moving at
speed 5); rule 1 fires and the value written to the store is 8, not reserved. -/
theorem C9_witness :
    (!(isReservedCode (readStatusValue tgB (ConditionalExperimentalMode.init 10 10 0)))
      && !csMoving.standstill) = true
    ∧ (isReservedCode (⟨⟨10, [true]⟩, ⟨10, [false]⟩, false, true, false, false, 8, 8⟩ :
          ConditionalExperimentalMode).ce_status = false
        ∧ ((⟨⟨10, [true]⟩, ⟨10, [false]⟩, false, true, false, false, 8, 8⟩ :
            ConditionalExperimentalMode).ce_status = 0
          ∨ (7 ≤ (⟨⟨10, [true]⟩, ⟨10, [false]⟩, false, true, false, false, 8, 8⟩ :
              ConditionalExperimentalMode).ce_status
            ∧ (⟨⟨10, [true]⟩, ⟨10, [false]⟩, false, true, false, false, 8, 8⟩ :
              ConditionalExperimentalMode).ce_status ≤ 17))) :=
  ⟨by decide,
    C9_normal_write_not_reserved csMoving navNone mdOff 5 0 tgB plannerA fvA
      (ConditionalExperimentalMode.init 10 10 0) (by decide) _
      (by norm_num [ConditionalExperimentalMode.update,
        ConditionalExperimentalMode.update_conditions,
        ConditionalExperimentalMode.curve_detection, ConditionalExperimentalMode.slow_lead,
        ConditionalExperimentalMode.stop_sign_and_light,
        ConditionalExperimentalMode.check_conditions, pySqrtLt, below_speed,
        below_speed_with_lead, signal_rule, lane_available, desired_lane,
        approaching_maneuver, readStatusValue, isReservedCode, reservedCodes,
        MovingAverageCalculator.add_data, MovingAverageCalculator.get_moving_average,
        plannerA, tgA, tgB, fvA, csMoving, navNone, mdOff,
        ConditionalExperimentalMode.init])⟩

/-- Claim C5: the stop detector updates its smoother with the sample
(model reports stopped) OR (model remaining distance below `v_ego` times the
configured stop-time window) and latches the flag at the threshold, but only
when neither the curve flag nor lead tracking holds; when either holds the
smoother is force-reset to the empty window and the flag is forced false. -/
theorem C5_stop_detector_gate (tracking_lead : Bool) (v_ego : ℚ)
    (frogpilot_toggles : FrogPilotToggles) (planner : FrogPilotPlanner)
    (fv : FrogPilotVariables) (s : ConditionalExperimentalMode) :
    ((s.curve_detected || tracking_lead) = false →
      s.stop_sign_and_light tracking_lead v_ego frogpilot_toggles planner fv =
        { s with
          stop_light_mac := s.stop_light_mac.add_data (planner.model_stopped
            || decide (planner.model_length
              < v_ego * frogpilot_toggles.conditional_model_stop_time))
          stop_light_detected := decide (fv.THRESHOLD
            ≤ (s.stop_light_mac.add_data (planner.model_stopped
              || decide (planner.model_length
                < v_ego * frogpilot_toggles.conditional_model_stop_time))).get_moving_average) })
    ∧ ((s.curve_detected || tracking_lead) = true →
      s.stop_sign_and_light tracking_lead v_ego frogpilot_toggles planner fv =
        { s with
          stop_light_mac := s.stop_light_mac.reset_data
          stop_light_detected := false })
    ∧ (s.stop_light_mac.reset_data).data = [] := by
  refine ⟨?_, ?_, rfl⟩
  · intro h
    simp [ConditionalExperimentalMode.stop_sign_and_light, h]
  · intro h
    simp [ConditionalExperimentalMode.stop_sign_and_light, h]

/-- Witness for C5: with no curve and no lead the smoother gains the sample;
with the curve flag set (and a stale true stop flag) the smoother is emptied and
the flag is cleared. -/
theorem C5_witness :
    ((ConditionalExperimentalMode.init 10 10 0).curve_detected || false) = false
    ∧ (ConditionalExperimentalMode.init 10 10 0).stop_sign_and_light false 5 tgA
        plannerA fvA =
      { ConditionalExperimentalMode.init 10 10 0 with
        stop_light_mac := (ConditionalExperimentalMode.init 10 10 0).stop_light_mac.add_data
          (plannerA.model_stopped
            || decide (plannerA.model_length < 5 * tgA.conditional_model_stop_time))
        stop_light_detected := decide (fvA.THRESHOLD
          ≤ ((ConditionalExperimentalMode.init 10 10 0).stop_light_mac.add_data
            (plannerA.model_stopped
              || decide (plannerA.model_length
                < 5 * tgA.conditional_model_stop_time))).get_moving_average) }
    ∧ (({ ConditionalExperimentalMode.init 10 10 0 with
          curve_detected := true
          stop_light_detected := true
          stop_light_mac := ⟨10, [true]⟩ } :
          ConditionalExperimentalMode).curve_detected || false) = true
    ∧ ({ ConditionalExperimentalMode.init 10 10 0 with
          curve_detected := true
          stop_light_detected := true
          stop_light_mac := ⟨10, [true]⟩ } :
        ConditionalExperimentalMode).stop_sign_and_light false 5 tgA plannerA fvA =
      { ({ ConditionalExperimentalMode.init 10 10 0 with
            curve_detected := true
            stop_light_detected := true
            stop_light_mac := ⟨10, [true]⟩ } : ConditionalExperimentalMode) with
        stop_light_mac := (⟨10, [true]⟩ : MovingAverageCalculator).reset_data
        stop_light_detected := false } :=
  ⟨rfl,
    (C5_stop_detector_gate false 5 tgA plannerA fvA
      (ConditionalExperimentalMode.init 10 10 0)).1 rfl,
    rfl,
    (C5_stop_detector_gate false 5 tgA plannerA fvA
      { ConditionalExperimentalMode.init 10 10 0 with
        curve_detected := true
        stop_light_detected := true
        stop_light_mac := ⟨10, [true]⟩ }).2.1 rfl⟩

/-- Claim C6: on a cycle with positive road curvature the curve detector feeds
its smoother the sample (strict bound `sqrt(1/curvature) < v_ego`) OR
(discounted bound `sqrt(0.9/curvature) < v_ego` AND the previously latched
flag), then latches `curve_detected` at the threshold; the rational encoding of
the two bounds agrees with the real square-root comparisons. -/
theorem C6_curve_detector (tracking_lead : Bool) (v_ego : ℚ)
    (frogpilot_toggles : FrogPilotToggles) (planner : FrogPilotPlanner)
    (fv : FrogPilotVariables) (s : ConditionalExperimentalMode)
    (h : 0 < planner.road_curvature) :
    (s.curve_detection tracking_lead v_ego frogpilot_toggles planner fv =
      some { s with
        curvature_mac := s.curvature_mac.add_data
          (curveSample planner.road_curvature v_ego s.curve_detected)
        curve_detected := decide (fv.THRESHOLD ≤ (s.curvature_mac.add_data
          (curveSample planner.road_curvature v_ego s.curve_detected)).get_moving_average) })
    ∧ (curveSample planner.road_curvature v_ego s.curve_detected = true ↔
        (Real.sqrt ((1 / planner.road_curvature : ℚ) : ℝ) < (v_ego : ℝ)
          ∨ (Real.sqrt (((9 / 10) / planner.road_curvature : ℚ) : ℝ) < (v_ego : ℝ)
            ∧ s.curve_detected = true))) := by
  have h1 : (0 : ℚ) ≤ 1 / planner.road_curvature := by positivity
  have h2 : (0 : ℚ) ≤ (9 / 10) / planner.road_curvature := by positivity
  constructor
  · rw [ConditionalExperimentalMode.curve_detection, if_neg (ne_of_gt h),
      pySqrtLt_eq_some _ _ h1, pySqrtLt_eq_some _ _ h2]
    rfl
  · simp only [curveSample, Bool.or_eq_true, Bool.and_eq_true, decide_eq_true_eq]
    rw [sqrt_lt_iff_rat _ _ h1, sqrt_lt_iff_rat _ _ h2]

/-- Witness for C6: curvature 1/100 at speed 11 (strict bound 10 exceeded); the
smoother gains a true sample. -/
theorem C6_witness :
    (0 : ℚ) < plannerCurve.road_curvature
    ∧ curveSample plannerCurve.road_curvature 11
        (ConditionalExperimentalMode.init 10 10 0).curve_detected = true
    ∧ (ConditionalExperimentalMode.init 10 10 0).curve_detection false 11 tgB
        plannerCurve fvA =
      some { ConditionalExperimentalMode.init 10 10 0 with
        curvature_mac := (ConditionalExperimentalMode.init 10 10 0).curvature_mac.add_data
          (curveSample plannerCurve.road_curvature 11
            (ConditionalExperimentalMode.init 10 10 0).curve_detected)
        curve_detected := decide (fvA.THRESHOLD
          ≤ ((ConditionalExperimentalMode.init 10 10 0).curvature_mac.add_data
            (curveSample plannerCurve.road_curvature 11
              (ConditionalExperimentalMode.init 10 10 0).curve_detected)).get_moving_average) } :=
  ⟨by norm_num [plannerCurve, plannerA],
    by norm_num [curveSample, plannerCurve, plannerA, ConditionalExperimentalMode.init],
    (C6_curve_detector false 11 tgB plannerCurve fvA
      (ConditionalExperimentalMode.init 10 10 0)
      (by norm_num [plannerCurve, plannerA])).1⟩

/-- Claim C10: starting from the freshly-initialised state, after any run of
`update` cycles the flags `curve_detected` and `stop_light_detected` are never
simultaneously true — the normal path clears the stop flag whenever the fresh
curve flag holds, and the held path can only clear the stop flag. -/
theorem C10_curve_stop_exclusive (fv : FrogPilotVariables) (ws1 ws2 : ℕ)
    (ce0 : ℤ) (l : List CycleInputs) (s2 : ConditionalExperimentalMode)
    (h : updateRun fv l (ConditionalExperimentalMode.init ws1 ws2 ce0) = some s2) :
    ¬(s2.curve_detected = true ∧ s2.stop_light_detected = true) := by
  rintro ⟨hc, hs⟩
  have hinv := updateRun_mutex fv l (ConditionalExperimentalMode.init ws1 ws2 ce0)
    s2 (fun hcc => Bool.noConfusion hcc) h
  rw [hinv hc] at hs
  exact Bool.noConfusion hs

/-- Witness for C10: a run of one normal cycle with window size 2 latches the
curve flag true (average 1/2 meets the threshold 1/2) while the stop flag stays
false. -/
theorem C10_witness :
    updateRun fvA [iNormal] (ConditionalExperimentalMode.init 2 2 0) =
      some (⟨⟨2, [true]⟩, ⟨2, []⟩, true, true, false, false, 8, 8⟩ :
        ConditionalExperimentalMode)
    ∧ ¬((⟨⟨2, [true]⟩, ⟨2, []⟩, true, true, false, false, 8, 8⟩ :
          ConditionalExperimentalMode).curve_detected = true
        ∧ (⟨⟨2, [true]⟩, ⟨2, []⟩, true, true, false, false, 8, 8⟩ :
          ConditionalExperimentalMode).stop_light_detected = true) := by
  have hrun : updateRun fvA [iNormal] (ConditionalExperimentalMode.init 2 2 0) =
      some (⟨⟨2, [true]⟩, ⟨2, []⟩, true, true, false, false, 8, 8⟩ :
        ConditionalExperimentalMode) := by
    norm_num [updateRun, iNormal, ConditionalExperimentalMode.update,
      ConditionalExperimentalMode.update_conditions,
      ConditionalExperimentalMode.curve_detection, ConditionalExperimentalMode.slow_lead,
      ConditionalExperimentalMode.stop_sign_and_light,
      ConditionalExperimentalMode.check_conditions, pySqrtLt, below_speed,
      below_speed_with_lead, signal_rule, lane_available, desired_lane,
      approaching_maneuver, readStatusValue, isReservedCode, reservedCodes,
      MovingAverageCalculator.add_data, MovingAverageCalculator.get_moving_average,
      MovingAverageCalculator.reset_data, plannerA, tgA, tgB, fvA, csMoving, navNone,
      mdOff, ConditionalExperimentalMode.init]
  exact ⟨hrun, C10_curve_stop_exclusive fvA 2 2 0 [iNormal] _ hrun⟩
